import Mathlib

/-!
Verification of the Life-in-Months grid builder.

Shallow embedding of `src/streamlit_app.py`.  The computational core is
`create_life_months_grid` (lines 5-36) together with the metric derivation in
`main` (lines 119-121).  Python integers are modelled as `Nat` (all inputs the
host UI supplies are non-negative) with explicitly `Int`-valued intermediate
arithmetic where the source can go negative (`current_months_lived - 1`);
Python floor division `//` and modulo `%` on `Int` are `Int.fdiv` / `Int.fmod`.
A NumPy 2-D array of dtype int is a `List (List Nat)`; NumPy cell assignment
`grid[r, c] = v` accepts any index `i` with `-n ≤ i < n` (negative indices
address from the end) and raises `IndexError` otherwise, which the embedding
returns as `none`.
-/

set_option autoImplicit false

abbrev Grid := List (List Nat)

/-- NumPy index resolution along one axis of length `n`: an index `i` with
`0 ≤ i < n` stands for itself, an index with `-n ≤ i < 0` stands for `i + n`,
anything else is an `IndexError` (`none`). -/
def npResolve (n : Nat) (i : Int) : Option Nat :=
  if 0 ≤ i ∧ i < (n : Int) then some i.toNat
  else if -(n : Int) ≤ i ∧ i < 0 then some (i + n).toNat
  else none

/-- NumPy cell assignment `grid[r, c] = v` with NumPy index semantics on both
axes; `none` models `IndexError`. -/
def setCell (g : Grid) (r c : Int) (v : Nat) : Option Grid :=
  match npResolve g.length r with
  | none => none
  | some ri =>
    let row := g.getD ri []
    match npResolve row.length c with
    | none => none
    | some ci => some (g.set ri (row.set ci v))

/-- Read cell `(r, c)` of a grid (out-of-range reads default to `0`; the
development only relies on in-range reads, which the dimension invariants
keep meaningful). -/
def cell (g : Grid) (r c : Nat) : Nat := (g.getD r []).getD c 0

/-- The loop `for month in range(current_months_lived): grid[month // 36,
month % 36] = 1` of `create_life_months_grid` (lines 26-29): `fill_lived g m`
performs the writes for months `0, 1, ..., m-1` in order. -/
def fill_lived (g : Grid) : Nat → Option Grid
  | 0 => some g
  | m + 1 =>
    match fill_lived g m with
    | none => none
    | some g' => setCell g' ((m : Int).fdiv 36) ((m : Int).fmod 36) 1

/-- Embedding of `create_life_months_grid` (lines 5-36): builds the
`life_span // 3 + 1` by `36` zero grid, fills the lived months with status 1,
then marks the current month (index `current_months_lived - 1`, computed in
`Int` because it is `-1` when `current_age = 0`) with status 2.
(The source also computes `total_months = life_span * 12` but never uses it.) -/
def create_life_months_grid (life_span current_age : Nat) : Option Grid :=
  let grid : Grid := List.replicate (life_span / 3 + 1) (List.replicate 36 0)
  let current_months_lived := current_age * 12
  match fill_lived grid current_months_lived with
  | none => none
  | some g =>
    setCell g (((current_months_lived : Int) - 1).fdiv 36)
      (((current_months_lived : Int) - 1).fmod 36) 2

/-- The metrics block of `main` (lines 119-121): `months_lived =
current_age * 12`, `months_total = expected_lifespan * 12`,
`percentage_lived = (months_lived / months_total) * 100`.  Python true
division raises `ZeroDivisionError` when `months_total = 0`, modelled as
`none`; otherwise it is exact division in `ℚ` (the quotients arising here are
exactly representable). -/
def computeMetrics (expected_lifespan current_age : Nat) : Option (Nat × Nat × ℚ) :=
  let months_lived := current_age * 12
  let months_total := expected_lifespan * 12
  if months_total = 0 then none
  else some (months_lived, months_total,
    ((months_lived : ℚ) / (months_total : ℚ)) * 100)

/-! ## Helper lemmas on lists -/

theorem getD_set_same {α : Type} (l : List α) (i : Nat) (v d : α)
    (h : i < l.length) : (l.set i v).getD i d = v := by
  induction l generalizing i with
  | nil => simp at h
  | cons a t ih =>
    cases i with
    | zero => rfl
    | succ n => simpa using ih n (by simpa using h)

theorem getD_set_other {α : Type} (l : List α) (i j : Nat) (v d : α)
    (h : i ≠ j) : (l.set i v).getD j d = l.getD j d := by
  induction l generalizing i j with
  | nil => rfl
  | cons a t ih =>
    cases i with
    | zero =>
      cases j with
      | zero => exact absurd rfl h
      | succ m => simp
    | succ n =>
      cases j with
      | zero => simp
      | succ m => simpa using ih n m (by omega)

theorem getD_replicate {α : Type} (n : Nat) (x d : α) (i : Nat) :
    (List.replicate n x).getD i d = if i < n then x else d := by
  induction n generalizing i with
  | zero => simp
  | succ k ih =>
    cases i with
    | zero => simp [List.replicate_succ]
    | succ m =>
      rw [List.replicate_succ]
      simpa [Nat.succ_lt_succ_iff] using ih m

/-! ## Python floor division and modulo on non-negative operands -/

theorem fdiv_cast36 (m : Nat) : (m : Int).fdiv 36 = ((m / 36 : Nat) : Int) := by
  cases m with
  | zero => show (0 : Int) = ((0 / 36 : Nat) : Int); rw [Nat.zero_div]; rfl
  | succ k => rfl

theorem fmod_cast36 (m : Nat) : (m : Int).fmod 36 = ((m % 36 : Nat) : Int) := by
  cases m with
  | zero => show (0 : Int) = ((0 % 36 : Nat) : Int); rw [Nat.zero_mod]; rfl
  | succ k => rfl

/-! ## Characterisation of a single in-range cell assignment -/

theorem npResolve_natCast (n i : Nat) (h : i < n) :
    npResolve n (i : Int) = some i := by
  unfold npResolve
  rw [if_pos ⟨Int.natCast_nonneg i, by exact_mod_cast h⟩]
  congr 1

theorem npResolve_neg_one (n : Nat) (h : 1 ≤ n) :
    npResolve n (-1 : Int) = some (n - 1) := by
  unfold npResolve
  rw [if_neg (by omega), if_pos (by constructor <;> omega)]
  congr 1
  omega

theorem setCell_char (g : Grid) (rows ri ci v : Nat)
    (hlen : g.length = rows) (hrowlen : ∀ i, i < rows → (g.getD i []).length = 36)
    (hr : ri < rows) (hc : ci < 36) :
    ∃ g', setCell g (ri : Int) (ci : Int) v = some g' ∧
      g'.length = rows ∧ (∀ i, i < rows → (g'.getD i []).length = 36) ∧
      ∀ r c, cell g' r c = if r = ri ∧ c = ci then v else cell g r c := by
  have h1 : npResolve g.length (ri : Int) = some ri := by
    rw [hlen]; exact npResolve_natCast rows ri hr
  have hrl : (g.getD ri []).length = 36 := hrowlen ri hr
  have h2 : npResolve (g.getD ri []).length (ci : Int) = some ci := by
    rw [hrl]; exact npResolve_natCast 36 ci hc
  refine ⟨g.set ri ((g.getD ri []).set ci v), ?_, ?_, ?_, ?_⟩
  · unfold setCell
    rw [h1]
    simp only []
    rw [h2]
  · rw [List.length_set, hlen]
  · intro i hi
    by_cases hir : i = ri
    · subst hir
      rw [getD_set_same g i _ [] (by omega), List.length_set, hrl]
    · rw [getD_set_other g ri i _ [] (fun e => hir e.symm)]
      exact hrowlen i hi
  · intro r c
    unfold cell
    by_cases hrr : r = ri
    · subst hrr
      rw [getD_set_same g r _ [] (by omega)]
      by_cases hcc : c = ci
      · subst hcc
        rw [getD_set_same _ c v 0 (by omega)]
        simp
      · rw [getD_set_other _ ci c v 0 (fun e => hcc e.symm)]
        simp [hcc]
    · rw [getD_set_other g ri r _ [] (fun e => hrr e.symm)]
      simp [hrr, cell]

/-! ## Characterisation of the lived-months loop -/

theorem fill_lived_char (rows : Nat) (M : Nat) (hM : M ≤ rows * 36) :
    ∃ g, fill_lived (List.replicate rows (List.replicate 36 0)) M = some g ∧
      g.length = rows ∧ (∀ i, i < rows → (g.getD i []).length = 36) ∧
      ∀ r c, cell g r c = if c < 36 ∧ r * 36 + c < M then 1 else 0 := by
  induction M with
  | zero =>
    refine ⟨_, rfl, by simp, ?_, ?_⟩
    · intro i hi
      rw [getD_replicate, if_pos hi]
      simp
    · intro r c
      rw [if_neg (by omega)]
      unfold cell
      rw [getD_replicate]
      split
      · rw [getD_replicate]
        split <;> rfl
      · rfl
  | succ m ih =>
    obtain ⟨g, hfill, hlen, hrows, hcell⟩ := ih (by omega)
    have hdiv : m / 36 < rows := by omega
    have hmod : m % 36 < 36 := by omega
    obtain ⟨g', hset, hlen', hrows', hcell'⟩ :=
      setCell_char g rows (m / 36) (m % 36) 1 hlen hrows hdiv hmod
    refine ⟨g', ?_, hlen', hrows', ?_⟩
    · have e : fill_lived (List.replicate rows (List.replicate 36 0)) (m + 1)
          = setCell g ((m : Int).fdiv 36) ((m : Int).fmod 36) 1 := by
        unfold fill_lived
        rw [hfill]
      rw [e, fdiv_cast36, fmod_cast36]
      exact hset
    · intro r c
      rw [hcell' r c, hcell r c]
      have hd := Nat.div_add_mod m 36
      split_ifs <;> omega

/-! ## Characterisation of the whole grid builder -/

theorem create_grid_char_pos (L A : Nat) (hA : 1 ≤ A)
    (hM : A * 12 ≤ (L / 3 + 1) * 36) :
    ∃ g, create_life_months_grid L A = some g ∧
      g.length = L / 3 + 1 ∧ (∀ i, i < L / 3 + 1 → (g.getD i []).length = 36) ∧
      ∀ r c, cell g r c =
        if c < 36 ∧ r * 36 + c + 1 = A * 12 then 2
        else if c < 36 ∧ r * 36 + c + 1 < A * 12 then 1 else 0 := by
  obtain ⟨g, hfill, hlen, hrows, hcell⟩ := fill_lived_char (L / 3 + 1) (A * 12) hM
  have hdiv : (A * 12 - 1) / 36 < L / 3 + 1 := by omega
  have hmod : (A * 12 - 1) % 36 < 36 := by omega
  obtain ⟨g', hset, hlen', hrows', hcell'⟩ :=
    setCell_char g (L / 3 + 1) ((A * 12 - 1) / 36) ((A * 12 - 1) % 36) 2
      hlen hrows hdiv hmod
  refine ⟨g', ?_, hlen', hrows', ?_⟩
  · simp only [create_life_months_grid]
    rw [hfill]
    have e1 : ((A * 12 : Nat) : Int) - 1 = ((A * 12 - 1 : Nat) : Int) := by omega
    rw [e1, fdiv_cast36, fmod_cast36]
    exact hset
  · intro r c
    rw [hcell' r c, hcell r c]
    have hd := Nat.div_add_mod (A * 12 - 1) 36
    split_ifs <;> omega

theorem setCell_neg_one (g : Grid) (rows : Nat) (v : Nat) (c : Int)
    (hlen : g.length = rows) (hrows : 1 ≤ rows) :
    setCell g (-1) c v = setCell g ((rows - 1 : Nat) : Int) c v := by
  unfold setCell
  rw [hlen, npResolve_neg_one rows hrows, npResolve_natCast rows (rows - 1) (by omega)]

theorem create_grid_char_zero (L : Nat) :
    ∃ g, create_life_months_grid L 0 = some g ∧
      g.length = L / 3 + 1 ∧ (∀ i, i < L / 3 + 1 → (g.getD i []).length = 36) ∧
      ∀ r c, cell g r c = if r = L / 3 ∧ c = 35 then 2 else 0 := by
  obtain ⟨g, hfill, hlen, hrows, hcell⟩ := fill_lived_char (L / 3 + 1) 0 (by omega)
  obtain ⟨g', hset, hlen', hrows', hcell'⟩ :=
    setCell_char g (L / 3 + 1) (L / 3) 35 2 hlen hrows (by omega) (by omega)
  refine ⟨g', ?_, hlen', hrows', ?_⟩
  · simp only [create_life_months_grid]
    have hfill0 : fill_lived (List.replicate (L / 3 + 1) (List.replicate 36 0)) (0 * 12)
        = some g := hfill
    rw [hfill0]
    have e1 : (((0 * 12 : Nat) : Int) - 1).fdiv 36 = -1 := by decide
    have e2 : (((0 * 12 : Nat) : Int) - 1).fmod 36 = ((35 : Nat) : Int) := by decide
    rw [e1, e2]
    show setCell g (-1) ((35 : Nat) : Int) 2 = some g'
    rw [setCell_neg_one g (L / 3 + 1) 2 _ hlen (by omega), Nat.add_sub_cancel]
    exact hset
  · intro r c
    rw [hcell' r c, hcell r c]
    split_ifs <;> omega

theorem row_length_of_indexed (g : Grid)
    (h : ∀ i, i < g.length → (g.getD i []).length = 36) :
    ∀ row ∈ g, row.length = 36 := by
  induction g with
  | nil => intro row hr; simp at hr
  | cons a t ih =>
    intro row hr
    rcases List.mem_cons.mp hr with hr | hr
    · subst hr
      exact h 0 (by simp)
    · exact ih (fun i hi => h (i + 1) (by simpa using hi)) row hr

/-! ## The claims -/

/-- Claim C1: for every pair `(lifespan, age)` with `50 ≤ lifespan ≤ 120` and
`0 < age ≤ lifespan`, the returned grid has exactly one status-2 cell, namely
at linear index `age*12 - 1` (row `(age*12-1) / 36`, column `(age*12-1) % 36`);
every cell at a linear index strictly below `age*12 - 1` is status 1, and
every cell at a linear index at least `age*12` is status 0. -/
theorem grid_cells_pos (L A : Nat) (_h50 : 50 ≤ L) (_h120 : L ≤ 120)
    (hA : 0 < A) (hAL : A ≤ L) :
    ∃ g, create_life_months_grid L A = some g ∧
      cell g ((A * 12 - 1) / 36) ((A * 12 - 1) % 36) = 2 ∧
      (∀ r c, r < L / 3 + 1 → c < 36 → (cell g r c = 2 ↔ r * 36 + c = A * 12 - 1)) ∧
      (∀ r c, r < L / 3 + 1 → c < 36 → r * 36 + c < A * 12 - 1 → cell g r c = 1) ∧
      (∀ r c, r < L / 3 + 1 → c < 36 → A * 12 ≤ r * 36 + c → cell g r c = 0) := by
  obtain ⟨g, hg, _hlen, _hrows, hcell⟩ := create_grid_char_pos L A hA (by omega)
  have hd := Nat.div_add_mod (A * 12 - 1) 36
  have hm : (A * 12 - 1) % 36 < 36 := by omega
  refine ⟨g, hg, ?_, ?_, ?_, ?_⟩
  · rw [hcell ((A * 12 - 1) / 36) ((A * 12 - 1) % 36)]
    split_ifs <;> omega
  · intro r c _hr hc
    rw [hcell r c]
    constructor
    · intro h2
      split_ifs at h2 <;> omega
    · intro heq
      rw [if_pos ⟨hc, by omega⟩]
  · intro r c _hr hc hlt
    rw [hcell r c]
    split_ifs <;> omega
  · intro r c _hr hc hge
    rw [hcell r c]
    split_ifs <;> omega

theorem grid_cells_pos_witness :
    (50 ≤ 90 ∧ 90 ≤ 120 ∧ 0 < 30 ∧ 30 ≤ 90) ∧
    (∃ g, create_life_months_grid 90 30 = some g ∧
      cell g ((30 * 12 - 1) / 36) ((30 * 12 - 1) % 36) = 2 ∧
      (∀ r c, r < 90 / 3 + 1 → c < 36 →
        (cell g r c = 2 ↔ r * 36 + c = 30 * 12 - 1)) ∧
      (∀ r c, r < 90 / 3 + 1 → c < 36 → r * 36 + c < 30 * 12 - 1 → cell g r c = 1) ∧
      (∀ r c, r < 90 / 3 + 1 → c < 36 → 30 * 12 ≤ r * 36 + c → cell g r c = 0)) :=
  ⟨by decide, grid_cells_pos 90 30 (by decide) (by decide) (by decide) (by decide)⟩

/-- Claim C2: for every pair `(lifespan, age)` with `50 ≤ lifespan ≤ 120` and
`0 ≤ age ≤ lifespan`, the returned grid is rectangular with exactly
`lifespan / 3 + 1` rows and exactly 36 columns. -/
theorem grid_dimensions (L A : Nat) (_h50 : 50 ≤ L) (_h120 : L ≤ 120)
    (hAL : A ≤ L) :
    ∃ g, create_life_months_grid L A = some g ∧
      g.length = L / 3 + 1 ∧ ∀ row ∈ g, row.length = 36 := by
  rcases Nat.eq_zero_or_pos A with hA | hA
  · subst hA
    obtain ⟨g, hg, hlen, hrows, _⟩ := create_grid_char_zero L
    exact ⟨g, hg, hlen, row_length_of_indexed g (fun i hi => hrows i (by omega))⟩
  · obtain ⟨g, hg, hlen, hrows, _⟩ := create_grid_char_pos L A hA (by omega)
    exact ⟨g, hg, hlen, row_length_of_indexed g (fun i hi => hrows i (by omega))⟩

theorem grid_dimensions_witness :
    (50 ≤ 90 ∧ 90 ≤ 120 ∧ 30 ≤ 90) ∧
    (∃ g, create_life_months_grid 90 30 = some g ∧
      g.length = 90 / 3 + 1 ∧ ∀ row ∈ g, row.length = 36) :=
  ⟨by decide, grid_dimensions 90 30 (by decide) (by decide) (by decide)⟩

/-- Claim C3 (code behaviour at the failing input): the claim states that for
`age = 0` every cell of the returned grid is status 0 and no cell is status 2;
the code instead marks the cell at the last row (row 16 for `lifespan = 50`),
column 35 with status 2, because `current_months_lived - 1 = -1` and NumPy
negative indexing addresses the last row. -/
theorem age_zero_stray_mark :
    (create_life_months_grid 50 0).map (fun g => cell g 16 35) = some 2 := by
  decide

/-- Claim C4 (counterexample): the claim states that for `age = 0` the
computation of `current_row`/`current_col` from `-1` makes
`create_life_months_grid` raise an index fault; in fact at
`(lifespan, age) = (50, 0)` the call returns a grid (NumPy resolves the
negative index `-1` to the last row, raising nothing). -/
theorem age_zero_no_index_fault :
    (create_life_months_grid 50 0).isSome = true := by
  decide

/-- Claim C4 (amended): for `age = 0`, `current_row = -1` and
`current_col = 35`; NumPy negative-index semantics resolve row `-1` to the
last row, so `create_life_months_grid` returns a grid (no index fault) whose
cell at the last row (`lifespan / 3`), column 35, is status 2. -/
theorem age_zero_returns_grid (L : Nat) :
    ∃ g, create_life_months_grid L 0 = some g ∧ cell g (L / 3) 35 = 2 := by
  obtain ⟨g, hg, _hlen, _hrows, hcell⟩ := create_grid_char_zero L
  refine ⟨g, hg, ?_⟩
  rw [hcell (L / 3) 35]
  simp

/-- Claim C5: for valid inputs the metrics are `monthsLived = age * 12`,
`monthsTotal = lifespan * 12` and `percentageLived =
(monthsLived / monthsTotal) * 100`; and when `monthsTotal = 0` the
computation fails with a division-by-zero error instead of returning a
value. -/
theorem metrics_formulas :
    (∀ L A : Nat, 50 ≤ L → L ≤ 120 → A ≤ L →
      computeMetrics L A
        = some (A * 12, L * 12, ((A * 12 : Nat) : ℚ) / ((L * 12 : Nat) : ℚ) * 100)) ∧
    (∀ L A : Nat, L * 12 = 0 → computeMetrics L A = none) := by
  constructor
  · intro L A h1 _h2 _h3
    simp only [computeMetrics]
    rw [if_neg (by omega)]
  · intro L A h
    simp only [computeMetrics]
    rw [if_pos h]

theorem metrics_formulas_witness :
    computeMetrics 90 30
      = some (30 * 12, 90 * 12, ((30 * 12 : Nat) : ℚ) / ((90 * 12 : Nat) : ℚ) * 100) ∧
    computeMetrics 0 7 = none :=
  ⟨metrics_formulas.1 90 30 (by decide) (by decide) (by decide),
   metrics_formulas.2 0 7 (by decide)⟩

/-- Claim C6: concrete scenario `lifespan = 120`, `age = 120`: the metrics are
`monthsLived = 1440`, `monthsTotal = 1440`, `percentageLived = 100`; the grid
has 41 rows of 36 columns; the cell at linear index 1439 (row 39, column 35)
is status 2; and every cell at a linear index strictly below 1439 is
status 1. -/
theorem scenario_full_life :
    computeMetrics 120 120 = some (1440, 1440, 100) ∧
    ∃ g, create_life_months_grid 120 120 = some g ∧
      g.length = 41 ∧ (∀ row ∈ g, row.length = 36) ∧
      cell g 39 35 = 2 ∧
      ∀ r c, c < 36 → r * 36 + c < 1439 → cell g r c = 1 := by
  constructor
  · rw [computeMetrics]
    norm_num
  · obtain ⟨g, hg, hlen, hrows, hcell⟩ :=
      create_grid_char_pos 120 120 (by omega) (by omega)
    refine ⟨g, hg, by omega, row_length_of_indexed g (fun i hi => hrows i (by omega)),
      ?_, ?_⟩
    · rw [hcell 39 35]
      split_ifs <;> omega
    · intro r c hc hlt
      rw [hcell r c]
      split_ifs <;> omega

/-- Claim C7: for every valid pair of inputs the grid computation succeeds,
and two calls with identical arguments return structurally identical grids
(value equality cell by cell); the embedded builder is a pure function, so
there is no mutable state shared between the two results. -/
theorem grid_build_deterministic (L A : Nat) (_h50 : 50 ≤ L) (_h120 : L ≤ 120)
    (hAL : A ≤ L) :
    (∃ g, create_life_months_grid L A = some g) ∧
    ∀ ga gb, create_life_months_grid L A = some ga →
      create_life_months_grid L A = some gb →
      ga = gb ∧ ∀ r c, cell ga r c = cell gb r c := by
  constructor
  · rcases Nat.eq_zero_or_pos A with hA | hA
    · subst hA
      obtain ⟨g, hg, _⟩ := create_grid_char_zero L
      exact ⟨g, hg⟩
    · obtain ⟨g, hg, _⟩ := create_grid_char_pos L A hA (by omega)
      exact ⟨g, hg⟩
  · intro ga gb h1 h2
    rw [h1] at h2
    obtain rfl := Option.some.inj h2
    exact ⟨rfl, fun r c => rfl⟩

theorem grid_build_deterministic_witness :
    (50 ≤ 90 ∧ 90 ≤ 120 ∧ 30 ≤ 90) ∧
    ((∃ g, create_life_months_grid 90 30 = some g) ∧
    ∀ ga gb, create_life_months_grid 90 30 = some ga →
      create_life_months_grid 90 30 = some gb →
      ga = gb ∧ ∀ r c, cell ga r c = cell gb r c) :=
  ⟨by decide, grid_build_deterministic 90 30 (by decide) (by decide) (by decide)⟩

/-- Claim C8 (counterexample): the claim states that bounds-violating inputs
make the grid and metrics computations raise an `InvalidParameter` error
rather than return a result; at `(lifespan, age) = (1, 2)` (violating both
`50 ≤ lifespan` and `age ≤ lifespan`) both computations return results. -/
theorem no_invalid_parameter_error :
    (create_life_months_grid 1 2).isSome = true ∧
    computeMetrics 1 2 = some (24, 12, 200) := by
  constructor
  · decide
  · rw [computeMetrics]
    norm_num

theorem npResolve_ge (n i : Nat) (h : n ≤ i) : npResolve n (i : Int) = none := by
  unfold npResolve
  rw [if_neg (by omega), if_neg (by omega)]

theorem setCell_row_out (g : Grid) (r c : Int) (v : Nat)
    (h : npResolve g.length r = none) : setCell g r c v = none := by
  unfold setCell
  rw [h]

theorem fill_lived_none_mono (g : Grid) (M k : Nat)
    (h : fill_lived g M = none) : fill_lived g (M + k) = none := by
  induction k with
  | zero => exact h
  | succ j ih =>
    show fill_lived g ((M + j) + 1) = none
    unfold fill_lived
    rw [ih]

theorem fill_lived_overflow (rows M : Nat) (h : rows * 36 < M) :
    fill_lived (List.replicate rows (List.replicate 36 0)) M = none := by
  obtain ⟨g, hfill, hlen, _hrows, _⟩ := fill_lived_char rows (rows * 36) le_rfl
  have hstep : fill_lived (List.replicate rows (List.replicate 36 0)) (rows * 36 + 1)
      = none := by
    unfold fill_lived
    rw [hfill, fdiv_cast36]
    apply setCell_row_out
    rw [hlen]
    exact npResolve_ge rows (rows * 36 / 36) (by omega)
  have hM : M = (rows * 36 + 1) + (M - rows * 36 - 1) := by omega
  rw [hM]
  exact fill_lived_none_mono _ _ _ hstep

/-- Claim C8 (amended): the code performs no input validation and never
raises an `InvalidParameter` error on bounds-violating inputs: the grid
builder returns a grid whenever every cell write stays in range —
equivalently, whenever `age * 12 ≤ (lifespan / 3 + 1) * 36`, e.g.
`lifespan = 1`, `age = 2` — and fails with an index error whenever a write
falls out of range (`age ≥ 1` and `age * 12 > (lifespan / 3 + 1) * 36`, e.g.
`lifespan = 1`, `age = 4`); the metrics computation returns values for every
`lifespan ≥ 1` and fails, with a division-by-zero error, exactly at
`lifespan = 0`. -/
theorem no_validation_behaviour :
    (∀ L A : Nat, A * 12 ≤ (L / 3 + 1) * 36 →
      (create_life_months_grid L A).isSome = true) ∧
    (∀ L A : Nat, 1 ≤ A → (L / 3 + 1) * 36 < A * 12 →
      create_life_months_grid L A = none) ∧
    (∀ L A : Nat, 1 ≤ L → (computeMetrics L A).isSome = true) ∧
    (∀ A : Nat, computeMetrics 0 A = none) := by
  refine ⟨?_, ?_, ?_, ?_⟩
  · intro L A hM
    rcases Nat.eq_zero_or_pos A with hA | hA
    · subst hA
      obtain ⟨g, hg, _⟩ := create_grid_char_zero L
      rw [hg]
      rfl
    · obtain ⟨g, hg, _⟩ := create_grid_char_pos L A hA hM
      rw [hg]
      rfl
  · intro L A _hA hover
    simp only [create_life_months_grid]
    rw [fill_lived_overflow (L / 3 + 1) (A * 12) hover]
  · intro L A hL
    simp only [computeMetrics]
    rw [if_neg (by omega)]
    rfl
  · intro A
    simp only [computeMetrics]
    rw [if_pos (by decide)]

theorem no_validation_behaviour_witness :
    (create_life_months_grid 1 2).isSome = true ∧
    create_life_months_grid 1 4 = none ∧
    (computeMetrics 1 2).isSome = true ∧
    computeMetrics 0 3 = none :=
  ⟨no_validation_behaviour.1 1 2 (by decide),
   no_validation_behaviour.2.1 1 4 (by decide) (by decide),
   no_validation_behaviour.2.2.1 1 2 (by decide),
   no_validation_behaviour.2.2.2 3⟩

/-- Claim C9: for every `lifespan` with `50 ≤ lifespan ≤ 120`,
`create_life_months_grid lifespan 0` raises no error: under Python/NumPy
floor-division and negative-index semantics (`(-1) // 36 = -1`,
`(-1) % 36 = 35`, row `-1` is the last row) it returns a grid whose cell at
the last row (`lifespan / 3`), column 35, is status 2, while every other
cell is status 0. -/
theorem grid_age_zero_behaviour (L : Nat) (_h50 : 50 ≤ L) (_h120 : L ≤ 120) :
    ∃ g, create_life_months_grid L 0 = some g ∧
      g.length = L / 3 + 1 ∧ (∀ row ∈ g, row.length = 36) ∧
      cell g (L / 3) 35 = 2 ∧
      ∀ r c, ¬(r = L / 3 ∧ c = 35) → cell g r c = 0 := by
  obtain ⟨g, hg, hlen, hrows, hcell⟩ := create_grid_char_zero L
  refine ⟨g, hg, hlen, row_length_of_indexed g (fun i hi => hrows i (by omega)),
    ?_, ?_⟩
  · rw [hcell (L / 3) 35]
    simp
  · intro r c h
    rw [hcell r c, if_neg h]

theorem grid_age_zero_behaviour_witness :
    (50 ≤ 50 ∧ 50 ≤ 120) ∧
    (∃ g, create_life_months_grid 50 0 = some g ∧
      g.length = 50 / 3 + 1 ∧ (∀ row ∈ g, row.length = 36) ∧
      cell g (50 / 3) 35 = 2 ∧
      ∀ r c, ¬(r = 50 / 3 ∧ c = 35) → cell g r c = 0) :=
  ⟨by decide, grid_age_zero_behaviour 50 (by decide) (by decide)⟩

/-- Claim C10: for every pair with `1 ≤ age ≤ lifespan`, every cell write of
`create_life_months_grid` is within the grid bounds: each month index
`m < age * 12` and the current-month index `age * 12 - 1` yield a row
strictly below the row count `lifespan / 3 + 1` and a column in `[0, 36)`,
so the builder completes without reaching an indexing-error branch. -/
theorem writes_in_bounds (L A : Nat) (hA : 1 ≤ A) (hAL : A ≤ L) :
    (∀ m, m < A * 12 → m / 36 < L / 3 + 1 ∧ m % 36 < 36) ∧
    (A * 12 - 1) / 36 < L / 3 + 1 ∧ (A * 12 - 1) % 36 < 36 ∧
    (create_life_months_grid L A).isSome = true := by
  refine ⟨fun m hm => ⟨by omega, by omega⟩, by omega, by omega, ?_⟩
  obtain ⟨g, hg, _⟩ := create_grid_char_pos L A hA (by omega)
  rw [hg]
  rfl

theorem writes_in_bounds_witness :
    (1 ≤ 30 ∧ 30 ≤ 90) ∧
    ((∀ m, m < 30 * 12 → m / 36 < 90 / 3 + 1 ∧ m % 36 < 36) ∧
    (30 * 12 - 1) / 36 < 90 / 3 + 1 ∧ (30 * 12 - 1) % 36 < 36 ∧
    (create_life_months_grid 90 30).isSome = true) :=
  ⟨by decide, writes_in_bounds 90 30 (by decide) (by decide)⟩
